import Mathlib

/-!
Verification development for the sensory-neurons scraper (`src/scraper.py`).

The Python program is shallowly embedded below.  Python strings are modelled
as Lean `String` (a list of code points, matching Python's code-point
indexing/slicing semantics), Python dicts whose key sets are fixed per code
path are modelled as structures with `Option` fields for keys that are only
present on some paths, and the external world (the browser session, the HTTP
response, the hub) is modelled as explicit input data, since the program
merely reacts to it.  Exceptions raised by external calls are reified as
constructors of the input data; `try/except/finally` blocks become the
corresponding case splits in the embedding.
-/

namespace Scraper

/-! ## Python string primitives

`pyTake s n` is Python `s[:n]`, `pySliceFromTo s a b` is Python `s[a:b]`
(for `a ≤ b`; the callers below only use it under that guard), `pyStrip`
is Python `str.strip()` (whitespace at both ends), and `findSub sub l`
is Python `l.find(sub)` returning `none` for `-1`. -/

def pyTake (s : String) (n : Nat) : String := String.mk (s.data.take n)

def pySliceFromTo (s : String) (a b : Nat) : String := String.mk ((s.data.take b).drop a)

def pyStrip (s : String) : String :=
  String.mk (((s.data.dropWhile Char.isWhitespace).reverse.dropWhile Char.isWhitespace).reverse)

def findSub (sub : List Char) : List Char → Option Nat
  | [] => if sub.isEmpty then some 0 else none
  | c :: rest =>
    if List.isPrefixOf sub (c :: rest) then some 0
    else (findSub sub rest).map (· + 1)

/-- Python `sub in s` membership test on strings. -/
def pyIn (sub s : String) : Bool := (findSub sub.data s.data).isSome

/-! ## HTTP fallback fetcher (`AdvancedScraper.scrape_with_requests`, lines 210-246)

The single `requests.get` call is modelled by an `HttpAttempt` input: either
the transport raised (any exception from `requests.get`, carrying `str(e)`),
or a response object came back.  `response.raise_for_status()` raises
`requests.HTTPError` exactly when the status code is in 400..599; the message
that `requests` builds for that error is embedded in `raiseForStatusMsg`
(abstracting the response's reason phrase and the url as inputs). -/

structure HttpResponse where
  status_code : Nat
  text : String
  reason : String
  url : String
  headers : List (String × String)
deriving Repr, DecidableEq

inductive HttpAttempt where
  | got (r : HttpResponse)
  | failed (msg : String)
deriving Repr, DecidableEq

/-- The message of the `requests.HTTPError` raised by `raise_for_status`
for a status code in 400..599. -/
def raiseForStatusMsg (status : Nat) (reason url : String) : String :=
  if status < 500 then
    toString status ++ " Client Error: " ++ reason ++ " for url: " ++ url
  else
    toString status ++ " Server Error: " ++ reason ++ " for url: " ++ url

/-- Title extraction of lines 227-232: case-sensitive search for the literal
`<title>`; `start` is just past it, `end` is the first occurrence of
`</title>` anywhere in the document; the slice is stripped only when
`end > start`, otherwise the initial `"Unknown Title"` survives. -/
def extractTitle (text : String) : String :=
  if pyIn "<title>" text then
    match findSub "<title>".data text.data with
    | none => "Unknown Title"
    | some i =>
      let start := i + 7
      match findSub "</title>".data text.data with
      | none => "Unknown Title"
      | some e => if start < e then pyStrip (pySliceFromTo text start e) else "Unknown Title"
  else "Unknown Title"

/-- Python `text[:n] + "..." if len(text) > n else text` (lines 190 and 240). -/
def pyPreview (t : String) (n : Nat) : String :=
  if t.length > n then pyTake t n ++ "..." else t

/-- The dict returned by `scrape_with_requests`: the success dict (line 234)
and the failure dict (line 246) share only `success` and `method`. -/
structure RequestsResult where
  success : Bool
  method : String
  title : Option String := none
  status_code : Option Nat := none
  content_length : Option Nat := none
  text_preview : Option String := none
  headers : Option (List (String × String)) := none
  error : Option String := none
deriving Repr, DecidableEq

def scrape_with_requests (a : HttpAttempt) : RequestsResult :=
  match a with
  | .failed msg =>
    { success := false, method := "requests_error", error := some msg }
  | .got r =>
    if 400 ≤ r.status_code ∧ r.status_code < 600 then
      { success := false, method := "requests_error",
        error := some (raiseForStatusMsg r.status_code r.reason r.url) }
    else
      { success := true, method := "requests_fallback",
        title := some (extractTitle r.text),
        status_code := some r.status_code,
        content_length := some r.text.length,
        text_preview := some (pyPreview r.text 500),
        headers := some r.headers }

/-! ## Browser fetcher (`AdvancedScraper.scrape_with_browser`, lines 41-208)

The Playwright session is an external capability; its behaviour on one call
is an input.  A `BrowserSession.loaded` carries the DOM as the in-page
`page.evaluate` snippets observe it (lines 100-184): the body inner text
after script/style/nav/header/footer removal, the `a[href]` anchor list with
their browser-resolved absolute `href` and text content, the `img[src]` list,
and the raw counts the `dom_analysis` snippet queries.  `timeoutErr` is a
`PlaywrightTimeoutError` from `page.goto` (caught at line 201), `sessionErr`
any other in-session exception (caught at line 204); both carry `str(e)`.
Random user-agent/viewport choice and the in-page performance metrics are
environment-supplied values that the code copies through unchanged. -/

structure Anchor where
  href : String
  textContent : String
deriving Repr, DecidableEq

structure ImgElem where
  src : String
  alt : String
  naturalWidth : Nat
  naturalHeight : Nat
deriving Repr, DecidableEq

structure LinkItem where
  url : String
  text : String
deriving Repr, DecidableEq

structure ImageItem where
  src : String
  alt : String
  width : Nat
  height : Nat
deriving Repr, DecidableEq

structure PageModel where
  title : String
  bodyText : String
  anchors : List Anchor
  imgs : List ImgElem
  totalElements : Nat
  h1Count : Nat
  h2Count : Nat
  h3Count : Nat
  paragraphCount : Nat
  anchorCount : Nat
  imgCount : Nat
  contentContainers : Nat
  hasReact : Bool
  hasVue : Bool
  hasAngular : Bool
  hasJquery : Bool
  metrics : List (String × Nat)
deriving Repr, DecidableEq

/-- The link-extraction `page.evaluate` of lines 109-117:
take the first 20 `a[href]` elements, project to `{url, text}` with the text
trimmed and cut to 100 characters, then drop entries whose text is empty. -/
def jsLinks (anchors : List Anchor) : List LinkItem :=
  ((anchors.take 20).map
      (fun a => { url := a.href, text := pyTake (pyStrip a.textContent) 100 })).filter
    (fun l => l.text.length > 0)

/-- The image-extraction `page.evaluate` of lines 120-130:
first 10 `img[src]` elements, `alt` defaulting to the empty string. -/
def jsImages (imgs : List ImgElem) : List ImageItem :=
  (imgs.take 10).map
    (fun i => { src := i.src, alt := i.alt, width := i.naturalWidth, height := i.naturalHeight })

/-- The `dom_analysis` `page.evaluate` of lines 133-161: raw counts with no cap. -/
structure DomAnalysis where
  totalElements : Nat
  h1 : Nat
  h2 : Nat
  h3 : Nat
  paragraphs : Nat
  links : Nat
  images : Nat
  contentContainers : Nat
  react : Bool
  vue : Bool
  angular : Bool
  jquery : Bool
deriving Repr, DecidableEq

def jsDomAnalysis (p : PageModel) : DomAnalysis :=
  { totalElements := p.totalElements, h1 := p.h1Count, h2 := p.h2Count, h3 := p.h3Count,
    paragraphs := p.paragraphCount, links := p.anchorCount, images := p.imgCount,
    contentContainers := p.contentContainers,
    react := p.hasReact, vue := p.hasVue, angular := p.hasAngular, jquery := p.hasJquery }

inductive BrowserSession where
  | loaded (page : PageModel) (screenshotPath userAgent : String) (viewportW viewportH : Nat)
  | timeoutErr (msg : String)
  | sessionErr (msg : String)
deriving Repr, DecidableEq

/-- The dict returned by `scrape_with_browser`: the success dict of
lines 186-199 and the two failure dicts of lines 203 and 206. -/
structure BrowserResult where
  success : Bool
  method : String
  title : Option String := none
  text_content : Option String := none
  text_length : Option Nat := none
  links : Option (List LinkItem) := none
  images : Option (List ImageItem) := none
  screenshot_path : Option String := none
  dom_analysis : Option DomAnalysis := none
  page_metrics : Option (List (String × Nat)) := none
  user_agent : Option String := none
  viewport : Option (Nat × Nat) := none
  error : Option String := none
deriving Repr, DecidableEq

/-- Value returned by the `try/except` body of `scrape_with_browser`
(every modelled exit returns; the two `except` clauses of lines 201-206
convert the in-session exceptions into failure dicts). -/
def browserBody : BrowserSession → BrowserResult
  | .loaded p sp ua vw vh =>
    { success := true, method := "playwright_browser_automation",
      title := some p.title,
      text_content := some (pyPreview p.bodyText 2000),
      text_length := some p.bodyText.length,
      links := some (jsLinks p.anchors),
      images := some (jsImages p.imgs),
      screenshot_path := some sp,
      dom_analysis := some (jsDomAnalysis p),
      page_metrics := some p.metrics,
      user_agent := some ua,
      viewport := some (vw, vh) }
  | .timeoutErr m =>
    { success := false, method := "playwright_timeout", error := some ("Timeout: " ++ m) }
  | .sessionErr m =>
    { success := false, method := "playwright_error", error := some m }

/-- Resource events of one `scrape_with_browser` call, in order.  `launch`
is the `p.chromium.launch` of line 45, `close` the `await browser.close()`
in the `finally` of lines 207-208, `ret` the return to the caller. -/
inductive SessEvent where
  | launch
  | navigate
  | settle
  | screenshot
  | evaluate
  | raiseTimeout
  | raiseError
  | close
  | ret
deriving Repr, DecidableEq

/-- `scrape_with_browser` as result plus resource-event trace.  The body of
the `try` runs to one of its three exits, then the `finally` closes the
browser, then the already-computed dict is returned. -/
def scrape_with_browser (s : BrowserSession) : BrowserResult × List SessEvent :=
  (browserBody s,
    [SessEvent.launch] ++
      (match s with
       | .loaded _ _ _ _ _ =>
         [SessEvent.navigate, SessEvent.settle, SessEvent.screenshot, SessEvent.evaluate]
       | .timeoutErr _ => [SessEvent.navigate, SessEvent.raiseTimeout]
       | .sessionErr _ => [SessEvent.navigate, SessEvent.raiseError]) ++
      [SessEvent.close, SessEvent.ret])

/-! ## The pipeline (`main`, lines 248-365)

Configuration comes from the environment: `os.getenv` yields `none` for an
unset variable, and Python truthiness (`if hub_url and api_key`) treats both
`None` and the empty string as false.  What the external world does during
the run is a `RunEnv`: the browser call either returns (with some
`BrowserSession` behaviour) or raises out of `scrape_with_browser` — e.g. a
launch failure before the `try` of line 82 — landing in `main`'s `except` at
line 304; the HTTP attempt is consulted only if the fallback runs
(`scrape_with_requests` catches all its exceptions itself and always
returns).  `dataMentionsJs` abstracts the check
`"javascript" in str(result.get("data", {}))` of line 315, a predicate on
Python's textual rendering of the data dict.  The callback block
(lines 344-361) catches everything and writes nothing back into `result`,
so its outcome never appears in the `JobResult`. -/

structure Config where
  target_url : String
  hub_url : Option String
  api_key : Option String
  priority : String
deriving Repr, DecidableEq

inductive BrowserAttempt where
  | returned (s : BrowserSession)
  | raised (msg : String)
deriving Repr, DecidableEq

structure RunEnv where
  browser : BrowserAttempt
  http : HttpAttempt
  dataMentionsJs : Bool
deriving Repr, DecidableEq

inductive RunData where
  | empty
  | browser (r : BrowserResult)
  | http (r : RequestsResult)
deriving Repr, DecidableEq

structure LearningMeta where
  site_complexity : String
  extraction_difficulty : String
  success_factors : List String
  execution_time : String
  memory_usage : String
  success_rate_is_one : Bool
  adaptation_notes : List String
deriving Repr, DecidableEq

/-- The result dict of lines 261-270 plus the keys that `result.update` /
assignment may add later (`extraction_method`, `capabilities_used`, `error`,
and the metadata of lines 313-334). -/
structure JobResult where
  job_id : String
  url : String
  status : String
  component : String
  timestamp : String
  priority : String
  data : RunData
  extraction_method : Option String := none
  capabilities_used : Option (List String) := none
  error : Option String := none
  metadata : Option LearningMeta := none
deriving Repr, DecidableEq

/-- Observable pipeline events: a fetcher invoked on a url, and the
status-field writes performed by the `result.update` calls. -/
inductive PipeEvent where
  | browserFetch (url : String)
  | httpFetch (url : String)
  | statusSet (st : String)
deriving Repr, DecidableEq

/-- Lines 274-310: try browser; on `success` take the browser branch, else
run the requests fallback; an exception from the browser call lands in the
`except` of line 304. -/
def pipelineCore (cfg : Config) (r0 : JobResult) (env : RunEnv) : JobResult × List PipeEvent :=
  match env.browser with
  | .raised msg =>
    ({ r0 with status := "failed", error := some msg, extraction_method := some "none" },
      [PipeEvent.browserFetch cfg.target_url, PipeEvent.statusSet "failed"])
  | .returned s =>
    let br := (scrape_with_browser s).1
    if br.success then
      ({ r0 with
          status := "completed"
          data := RunData.browser br
          extraction_method := some "playwright_browser"
          capabilities_used := some ["browser_automation", "anti_detection",
            "screenshot_capture", "dom_analysis", "javascript_execution"] },
        [PipeEvent.browserFetch cfg.target_url, PipeEvent.statusSet "completed"])
    else
      let fb := scrape_with_requests env.http
      let st := if fb.success then "completed" else "failed"
      ({ r0 with
          status := st
          data := RunData.http fb
          extraction_method := some "requests_fallback"
          capabilities_used := some ["http_requests", "basic_parsing"] },
        [PipeEvent.browserFetch cfg.target_url, PipeEvent.httpFetch cfg.target_url,
          PipeEvent.statusSet st])

/-- The metadata block of lines 313-334. -/
def addMetadata (r : JobResult) (dataMentionsJs : Bool) : JobResult :=
  { r with
      metadata := some
        { site_complexity := if dataMentionsJs then "high" else "low"
          extraction_difficulty :=
            if r.extraction_method = some "playwright_browser" then "advanced" else "basic"
          success_factors :=
            if r.extraction_method = some "playwright_browser" then
              ["anti_detection_enabled", "dynamic_user_agent", "random_viewport",
                "stealth_scripts"]
            else ["basic_headers"]
          execution_time := "< 60s"
          memory_usage := "moderate"
          success_rate_is_one := r.status = "completed"
          adaptation_notes :=
            [if r.extraction_method = some "playwright_browser" then
                "Site requires JavaScript execution" else "Simple HTTP sufficient",
              "Anti-detection measures applied",
              "Screenshot captured for visual analysis"] } }

/-- Python truthiness of an optional environment string. -/
def isTruthy : Option String → Bool
  | none => false
  | some s => s ≠ ""

structure RunOutcome where
  result : JobResult
  persisted : Bool
  callbackSent : Bool
  trace : List PipeEvent
deriving Repr, DecidableEq

/-- `main`: build the initial result (lines 261-270), run the fallback
pipeline, attach metadata, write `results.json` unconditionally
(lines 338-339), then POST to the hub only when both `hub_url` and
`api_key` are truthy (line 344). -/
def main (cfg : Config) (jobId timestamp : String) (env : RunEnv) : RunOutcome :=
  let r0 : JobResult :=
    { job_id := jobId, url := cfg.target_url, status := "started",
      component := "sensory-neurons-advanced", timestamp := timestamp,
      priority := cfg.priority, data := RunData.empty }
  let step := pipelineCore cfg r0 env
  let r2 := addMetadata step.1 env.dataMentionsJs
  { result := r2, persisted := true,
    callbackSent := isTruthy cfg.hub_url && isTruthy cfg.api_key,
    trace := step.2 }

/-! ## Concrete fixtures used by witnesses and counterexamples -/

def cfgNoHub : Config :=
  { target_url := "https://example.com", hub_url := none, api_key := none, priority := "normal" }

def cfgHub : Config :=
  { target_url := "https://example.com", hub_url := some "https://hub.test",
    api_key := some "key", priority := "normal" }

def respNotFound : HttpResponse :=
  { status_code := 404, text := "nope", reason := "Not Found",
    url := "https://example.com", headers := [] }

def respOk : HttpResponse :=
  { status_code := 200, text := "<title>Hi</title>", reason := "OK",
    url := "https://example.com", headers := [("Content-Type", "text/html")] }

def resp304 : HttpResponse :=
  { status_code := 304, text := "", reason := "Not Modified",
    url := "https://example.com", headers := [] }

def longBody : String := String.mk (List.replicate 501 'b')

def respLong : HttpResponse :=
  { status_code := 200, text := longBody, reason := "OK",
    url := "https://example.com", headers := [] }

def envBothFail : RunEnv :=
  { browser := BrowserAttempt.returned (BrowserSession.timeoutErr "nav timeout"),
    http := HttpAttempt.got respNotFound, dataMentionsJs := false }

def envFallbackOk : RunEnv :=
  { browser := BrowserAttempt.returned (BrowserSession.sessionErr "boom"),
    http := HttpAttempt.got respOk, dataMentionsJs := false }

def longText : String := String.mk (List.replicate 2001 'a')

def pageLong : PageModel :=
  { title := "T", bodyText := longText, anchors := [], imgs := [],
    totalElements := 1, h1Count := 0, h2Count := 0, h3Count := 0,
    paragraphCount := 0, anchorCount := 0, imgCount := 0, contentContainers := 0,
    hasReact := false, hasVue := false, hasAngular := false, hasJquery := false,
    metrics := [] }

def sessLong : BrowserSession := BrowserSession.loaded pageLong "shot.png" "ua" 1920 1080

def pageManyH1 : PageModel :=
  { title := "T", bodyText := "short", anchors := [], imgs := [],
    totalElements := 12, h1Count := 6, h2Count := 0, h3Count := 0,
    paragraphCount := 0, anchorCount := 0, imgCount := 0, contentContainers := 0,
    hasReact := false, hasVue := false, hasAngular := false, hasJquery := false,
    metrics := [] }

def sessManyH1 : BrowserSession := BrowserSession.loaded pageManyH1 "shot.png" "ua" 1366 768

/-! ## Helper lemmas -/

theorem length_mk (l : List Char) : (String.mk l).length = l.length := rfl

theorem mk_data (s : String) : String.mk s.data = s := rfl

theorem pyTake_length (s : String) (n : Nat) : (pyTake s n).length = min n s.length := by
  simp [pyTake, length_mk, List.length_take]

theorem pyPreview_length (t : String) (n : Nat) :
    (pyPreview t n).length = min t.length n + (if n < t.length then 3 else 0) := by
  unfold pyPreview
  split
  · rw [String.length_append, pyTake_length]
    have h3 : ("..." : String).length = 3 := rfl
    rw [h3]
    omega
  · omega

theorem scrape_with_requests_failure_error (a : HttpAttempt)
    (h : (scrape_with_requests a).success = false) :
    ((scrape_with_requests a).error).isSome = true := by
  cases a with
  | failed m => rfl
  | got r =>
    by_cases hc : 400 ≤ r.status_code ∧ r.status_code < 600
    · simp [scrape_with_requests, hc]
    · simp [scrape_with_requests, hc] at h

theorem findSub_self_append (sub l : List Char) : findSub sub (sub ++ l) = some 0 := by
  have hp : List.isPrefixOf sub (sub ++ l) = true := by
    rw [List.isPrefixOf_iff_prefix]
    exact List.prefix_append sub l
  cases hsl : sub ++ l with
  | nil =>
    have hsub : sub = [] := (List.append_eq_nil.mp hsl).1
    simp [findSub, hsub]
  | cons c rest =>
    rw [hsl] at hp
    simp [findSub, hp]

theorem findSub_cons_ne (sub : List Char) (c0 : Char) (hs : sub.head? = some c0)
    (c : Char) (l : List Char) (hne : c ≠ c0) :
    findSub sub (c :: l) = (findSub sub l).map (· + 1) := by
  have hp : List.isPrefixOf sub (c :: l) = false := by
    cases sub with
    | nil => simp at hs
    | cons s0 s' =>
      have hs0 : s0 = c0 := by simpa using hs
      subst hs0
      have hb : (s0 == c) = false := beq_eq_false_iff_ne.mpr (fun h => hne h.symm)
      simp [List.isPrefixOf, hb]
  simp [findSub, hp]

theorem findSub_clean_append (sub : List Char) (c0 : Char) (hs : sub.head? = some c0)
    (a l : List Char) (ha : ∀ x ∈ a, x ≠ c0) :
    findSub sub (a ++ l) = (findSub sub l).map (· + a.length) := by
  induction a with
  | nil => cases h : findSub sub l <;> simp [h]
  | cons x a' ih =>
    have hx : x ≠ c0 := ha x (by simp)
    rw [List.cons_append, findSub_cons_ne sub c0 hs x (a' ++ l) hx,
      ih (fun y hy => ha y (by simp [hy]))]
    cases h : findSub sub l <;> simp [h]
    omega

theorem titleOpen_data : "<title>".data = ['<', 't', 'i', 't', 'l', 'e', '>'] := rfl

theorem titleClose_data : "</title>".data = ['<', '/', 't', 'i', 't', 'l', 'e', '>'] := rfl

theorem findSub_cons (sub : List Char) (c : Char) (rest : List Char) :
    findSub sub (c :: rest) =
      if List.isPrefixOf sub (c :: rest) then some 0
      else (findSub sub rest).map (· + 1) := rfl

theorem findSub_close_skip_open (Y : List Char) :
    findSub "</title>".data ("<title>".data ++ Y) =
      (findSub "</title>".data Y).map (· + 7) := by
  have h0 : ("<title>".data ++ Y) = '<' :: (['t', 'i', 't', 'l', 'e', '>'] ++ Y) := rfl
  have h1 : List.isPrefixOf "</title>".data ('<' :: (['t', 'i', 't', 'l', 'e', '>'] ++ Y)) =
      false := rfl
  have h2 : findSub "</title>".data (['t', 'i', 't', 'l', 'e', '>'] ++ Y) =
      (findSub "</title>".data Y).map (· + 6) :=
    findSub_clean_append "</title>".data '<' rfl ['t', 'i', 't', 'l', 'e', '>'] Y (by decide)
  rw [h0, findSub_cons, if_neg (by simp [h1]), h2]
  cases h : findSub "</title>".data Y <;> simp [h]

theorem findSub_title_open (pre mid post : String) (hpre : ∀ c ∈ pre.data, c ≠ '<') :
    findSub "<title>".data (pre ++ "<title>" ++ mid ++ "</title>" ++ post).data =
      some pre.data.length := by
  have hdata : (pre ++ "<title>" ++ mid ++ "</title>" ++ post).data =
      pre.data ++ ("<title>".data ++ (mid.data ++ ("</title>".data ++ post.data))) := by
    simp [String.data_append, List.append_assoc]
  rw [hdata, findSub_clean_append "<title>".data '<' rfl pre.data _ hpre, findSub_self_append]
  simp

theorem findSub_title_close (pre mid post : String)
    (hpre : ∀ c ∈ pre.data, c ≠ '<') (hmid : ∀ c ∈ mid.data, c ≠ '<') :
    findSub "</title>".data (pre ++ "<title>" ++ mid ++ "</title>" ++ post).data =
      some (pre.data.length + 7 + mid.data.length) := by
  have hdata : (pre ++ "<title>" ++ mid ++ "</title>" ++ post).data =
      pre.data ++ ("<title>".data ++ (mid.data ++ ("</title>".data ++ post.data))) := by
    simp [String.data_append, List.append_assoc]
  rw [hdata, findSub_clean_append "</title>".data '<' rfl pre.data _ hpre,
    findSub_close_skip_open,
    findSub_clean_append "</title>".data '<' rfl mid.data _ hmid,
    findSub_self_append]
  simp
  omega

theorem slice_extracts_mid (pre mid post : String) :
    pySliceFromTo (pre ++ "<title>" ++ mid ++ "</title>" ++ post)
      (pre.data.length + 7) (pre.data.length + 7 + mid.data.length) = mid := by
  have hdata : (pre ++ "<title>" ++ mid ++ "</title>" ++ post).data =
      ((pre.data ++ "<title>".data) ++ mid.data) ++ ("</title>".data ++ post.data) := by
    simp [String.data_append, List.append_assoc]
  have hlen1 : ((pre.data ++ "<title>".data) ++ mid.data).length =
      pre.data.length + 7 + mid.data.length := by
    simp [List.length_append, titleOpen_data]
    omega
  have hlen2 : (pre.data ++ "<title>".data).length = pre.data.length + 7 := by
    simp [List.length_append, titleOpen_data]
  unfold pySliceFromTo
  rw [hdata, List.take_left' hlen1, List.drop_left' hlen2]

theorem main_status_config_independent (cfg cfg2 : Config) (j t j2 t2 : String) (env : RunEnv) :
    (main cfg j t env).result.status = (main cfg2 j2 t2 env).result.status := by
  cases hb : env.browser with
  | raised m => simp [main, pipelineCore, addMetadata, hb]
  | returned s =>
    by_cases hs : (scrape_with_browser s).1.success
    · simp [main, pipelineCore, addMetadata, hb, hs]
    · simp [main, pipelineCore, addMetadata, hb, hs]

/-! ## Claims -/

/-- C3, counterexample: on a body text of 2001 characters the browser result's
`text_content` has length 2003 (2000 kept characters plus the appended
`"..."`), not `min(text_length, 2000) = 2000` as the claim states. -/
theorem C3_truncation_counterexample :
    ((scrape_with_browser sessLong).1.text_content).map String.length ≠
      ((scrape_with_browser sessLong).1.text_length).map (fun n => min n 2000) := by
  have hlen : longText.length = 2001 := by
    show (String.mk (List.replicate 2001 'a')).length = 2001
    rw [length_mk, List.length_replicate]
  have h1 : ((scrape_with_browser sessLong).1.text_content).map String.length = some 2003 := by
    show some (pyPreview longText 2000).length = _
    rw [pyPreview_length, hlen]
    norm_num
  have h2 : ((scrape_with_browser sessLong).1.text_length).map (fun n => min n 2000) =
      some 2000 := by
    show some (min longText.length 2000) = _
    rw [hlen]
    norm_num
  rw [h1, h2]
  simp

/-- C3, amended: `text_length` is the untruncated extracted text length, and
the returned `text_content` has length `text_length` when that is at most
2000, and length 2003 (2000 characters plus a 3-character ellipsis)
otherwise. -/
theorem C3_amended_truncation (p : PageModel) (sp ua : String) (vw vh : Nat) :
    (scrape_with_browser (BrowserSession.loaded p sp ua vw vh)).1.text_length =
      some p.bodyText.length ∧
    ((scrape_with_browser (BrowserSession.loaded p sp ua vw vh)).1.text_content).map
        String.length =
      some (if 2000 < p.bodyText.length then 2003 else p.bodyText.length) := by
  refine ⟨rfl, ?_⟩
  show some (pyPreview p.bodyText 2000).length = _
  rw [pyPreview_length]
  by_cases h : 2000 < p.bodyText.length <;> simp [h] <;> omega

/-- C4, counterexample: with no title element the code yields
`"Unknown Title"`, not the claimed `"No title found"` sentinel, and the
match is case-sensitive: an uppercase `<TITLE>` element is not found. -/
theorem C4_title_counterexample :
    extractTitle "" ≠ "No title found" ∧ extractTitle "<TITLE>Hi</TITLE>" ≠ "Hi" := by
  constructor <;> decide

/-- C4, amended: title extraction is case-sensitive on the literal tags
`<title>` and `</title>`, and the sentinel is `"Unknown Title"`: when the
document has no `<title>` occurrence the sentinel is returned, and for a
document `pre ++ "<title>" ++ mid ++ "</title>" ++ post` whose `pre` and
`mid` contain no `<` character the result is `mid` stripped of surrounding
whitespace — except that an empty title element also yields the sentinel
(the code requires the closing tag to start strictly after the content
start). -/
theorem C4_amended_title :
    (∀ s : String, pyIn "<title>" s = false → extractTitle s = "Unknown Title") ∧
    (∀ pre mid post : String, (∀ c ∈ pre.data, c ≠ '<') → (∀ c ∈ mid.data, c ≠ '<') →
      extractTitle (pre ++ "<title>" ++ mid ++ "</title>" ++ post) =
        if mid.data = [] then "Unknown Title" else pyStrip mid) := by
  constructor
  · intro s hs
    unfold extractTitle
    rw [hs]
    simp
  · intro pre mid post hpre hmid
    have hopen := findSub_title_open pre mid post hpre
    have hclose := findSub_title_close pre mid post hpre hmid
    have hin : pyIn "<title>" (pre ++ "<title>" ++ mid ++ "</title>" ++ post) = true := by
      unfold pyIn
      rw [hopen]
      rfl
    unfold extractTitle
    rw [hin, hopen, hclose]
    show (if pre.data.length + 7 < pre.data.length + 7 + mid.data.length then
        pyStrip (pySliceFromTo (pre ++ "<title>" ++ mid ++ "</title>" ++ post)
          (pre.data.length + 7) (pre.data.length + 7 + mid.data.length))
      else "Unknown Title") = _
    by_cases hm : mid.data = []
    · have h0 : mid.data.length = 0 := by simp [hm]
      rw [if_neg (by omega), if_pos hm]
    · have hlt : pre.data.length + 7 < pre.data.length + 7 + mid.data.length := by
        have := List.length_pos.mpr hm
        omega
      rw [if_pos hlt, if_neg hm, slice_extracts_mid pre mid post]

/-- C4 witness: the amended theorem applied to a concrete document. -/
theorem C4_amended_title_witness :
    extractTitle ("x" ++ "<title>" ++ " Hi " ++ "</title>" ++ "y") = "Hi" := by
  have h := C4_amended_title.2 "x" " Hi " "y" (by decide) (by decide)
  rw [h]
  decide

/-- C5, counterexample: the browser result's `dom_analysis` reports the raw
number of `h1` elements with no cap of 5 — a page with six `h1` headings is
reported as 6. -/
theorem C5_heading_cap_counterexample :
    ((scrape_with_browser sessManyH1).1.dom_analysis).map DomAnalysis.h1 = some 6 ∧
    ¬ (6 ≤ 5) := ⟨rfl, by decide⟩

/-- C5, amended: extraction is a total function on every modelled input
(it never raises), and the extracted link list is capped at 20 and the
image list at 10; heading information, however, is returned only as
uncapped per-level counts, with no 5-per-level bound. -/
theorem C5_amended_bounds (s : BrowserSession) :
    (((scrape_with_browser s).1.links).getD []).length ≤ 20 ∧
    (((scrape_with_browser s).1.images).getD []).length ≤ 10 := by
  cases s with
  | loaded p sp ua vw vh =>
    constructor
    · show (jsLinks p.anchors).length ≤ 20
      unfold jsLinks
      refine le_trans (List.length_filter_le _ _) ?_
      rw [List.length_map, List.length_take]
      omega
    · show (jsImages p.imgs).length ≤ 10
      unfold jsImages
      rw [List.length_map, List.length_take]
      omega
  | timeoutErr m =>
    constructor
    · show ((none : Option (List LinkItem)).getD []).length ≤ 20
      simp
    · show ((none : Option (List ImageItem)).getD []).length ≤ 10
      simp
  | sessionErr m =>
    constructor
    · show ((none : Option (List LinkItem)).getD []).length ≤ 20
      simp
    · show ((none : Option (List ImageItem)).getD []).length ≤ 10
      simp

/-- C1: when the browser fetch returns an outcome with `success=false`, the
pipeline invokes the HTTP fetcher on the same URL and assigns the terminal
status only afterwards: the run's event trace is exactly the browser fetch,
then the HTTP fetch on the same url, then the final status write. -/
theorem C1_http_fallback_before_terminal (cfg : Config) (j t : String) (env : RunEnv)
    (s : BrowserSession) (hb : env.browser = BrowserAttempt.returned s)
    (hf : (scrape_with_browser s).1.success = false) :
    (main cfg j t env).trace =
      [PipeEvent.browserFetch cfg.target_url, PipeEvent.httpFetch cfg.target_url,
        PipeEvent.statusSet (main cfg j t env).result.status] := by
  cases hq : (scrape_with_requests env.http).success <;>
    simp [main, pipelineCore, addMetadata, hb, hf, hq]

/-- C1 witness: a run whose browser fetch times out and whose fallback gets
a 404. -/
theorem C1_http_fallback_before_terminal_witness :
    (main cfgNoHub "job" "ts" envBothFail).trace =
      [PipeEvent.browserFetch cfgNoHub.target_url, PipeEvent.httpFetch cfgNoHub.target_url,
        PipeEvent.statusSet (main cfgNoHub "job" "ts" envBothFail).result.status] :=
  C1_http_fallback_before_terminal cfgNoHub "job" "ts" envBothFail
    (BrowserSession.timeoutErr "nav timeout") rfl rfl

/-- C2, counterexample: when both fetches fail the final result's `status`
is `"failed"` but its `error` field is absent (`none`): the result dict is
never given an `error` key on this path, so the claimed non-empty `error`
field does not exist. -/
theorem C2_error_field_counterexample :
    (main cfgNoHub "job" "ts" envBothFail).result.status = "failed" ∧
    (main cfgNoHub "job" "ts" envBothFail).result.error = none := ⟨rfl, rfl⟩

/-- C2, amended: when both fetches fail, `status` is `"failed"` and the HTTP
failure detail is recorded — but inside `data` (the fallback result dict,
whose `error` key is always set on failure), while the JobResult's own
`error` field stays unset and the browser failure detail is not retained at
all (`data` is overwritten by the fallback dict). -/
theorem C2_amended_failure_detail (cfg : Config) (j t : String) (env : RunEnv)
    (s : BrowserSession) (hb : env.browser = BrowserAttempt.returned s)
    (hbf : (scrape_with_browser s).1.success = false)
    (hhf : (scrape_with_requests env.http).success = false) :
    (main cfg j t env).result.status = "failed" ∧
    (main cfg j t env).result.data = RunData.http (scrape_with_requests env.http) ∧
    ((scrape_with_requests env.http).error).isSome = true ∧
    (main cfg j t env).result.error = none := by
  refine ⟨?_, ?_, scrape_with_requests_failure_error env.http hhf, ?_⟩ <;>
    simp [main, pipelineCore, addMetadata, hb, hbf, hhf]

/-- C2 witness: the amended theorem at a concrete double-failure run. -/
theorem C2_amended_failure_detail_witness :
    (main cfgNoHub "job2" "ts2" envBothFail).result.status = "failed" ∧
    (main cfgNoHub "job2" "ts2" envBothFail).result.data =
      RunData.http (scrape_with_requests envBothFail.http) ∧
    ((scrape_with_requests envBothFail.http).error).isSome = true ∧
    (main cfgNoHub "job2" "ts2" envBothFail).result.error = none :=
  C2_amended_failure_detail cfgNoHub "job2" "ts2" envBothFail
    (BrowserSession.timeoutErr "nav timeout") rfl rfl (by decide)

/-- C6: with the hub url or the api key missing, the run still persists the
result, performs no callback, and the status is exactly what the same run
would produce with the callback configured. -/
theorem C6_reporter_skips_callback (cfg cfg2 : Config) (j t : String) (env : RunEnv)
    (_hu : cfg2.target_url = cfg.target_url) (_hp : cfg2.priority = cfg.priority)
    (_hcb : isTruthy cfg2.hub_url = true ∧ isTruthy cfg2.api_key = true)
    (h : isTruthy cfg.hub_url = false ∨ isTruthy cfg.api_key = false) :
    (main cfg j t env).persisted = true ∧
    (main cfg j t env).callbackSent = false ∧
    (main cfg j t env).result.status = (main cfg2 j t env).result.status := by
  refine ⟨rfl, ?_, main_status_config_independent cfg cfg2 j t j t env⟩
  show (isTruthy cfg.hub_url && isTruthy cfg.api_key) = false
  rcases h with h | h <;> simp [h]

/-- C6 witness: an unconfigured run against the same run with hub and key. -/
theorem C6_reporter_skips_callback_witness :
    (main cfgNoHub "job3" "ts3" envFallbackOk).persisted = true ∧
    (main cfgNoHub "job3" "ts3" envFallbackOk).callbackSent = false ∧
    (main cfgNoHub "job3" "ts3" envFallbackOk).result.status =
      (main cfgHub "job3" "ts3" envFallbackOk).result.status :=
  C6_reporter_skips_callback cfgNoHub cfgHub "job3" "ts3" envFallbackOk rfl rfl
    ⟨by decide, by decide⟩ (Or.inl rfl)

/-- C7, counterexample: after a browser failure and an HTTP success the code
marks `extraction_method` as `"requests_fallback"`, not `"http_regex"`, and
records the capability tags `["http_requests", "basic_parsing"]`, not the
six-tag set the claim states. -/
theorem C7_method_counterexample :
    (main cfgHub "job4" "ts4" envFallbackOk).result.extraction_method ≠ some "http_regex" ∧
    (main cfgHub "job4" "ts4" envFallbackOk).result.capabilities_used ≠
      some ["http_requests", "regex_parsing", "content_analysis", "link_extraction",
        "image_extraction", "structure_analysis"] := by
  constructor <;> decide

/-- C7, amended: after a browser failure and an HTTP success the run
completes with `extraction_method = "requests_fallback"` and
`capabilities_used = ["http_requests", "basic_parsing"]`. -/
theorem C7_amended_fallback_marking (cfg : Config) (j t : String) (env : RunEnv)
    (s : BrowserSession) (hb : env.browser = BrowserAttempt.returned s)
    (hbf : (scrape_with_browser s).1.success = false)
    (hhs : (scrape_with_requests env.http).success = true) :
    (main cfg j t env).result.status = "completed" ∧
    (main cfg j t env).result.extraction_method = some "requests_fallback" ∧
    (main cfg j t env).result.capabilities_used = some ["http_requests", "basic_parsing"] := by
  refine ⟨?_, ?_, ?_⟩ <;> simp [main, pipelineCore, addMetadata, hb, hbf, hhs]

/-- C7 witness: the amended theorem at a concrete fallback-success run. -/
theorem C7_amended_fallback_marking_witness :
    (main cfgNoHub "job5" "ts5" envFallbackOk).result.status = "completed" ∧
    (main cfgNoHub "job5" "ts5" envFallbackOk).result.extraction_method =
      some "requests_fallback" ∧
    (main cfgNoHub "job5" "ts5" envFallbackOk).result.capabilities_used =
      some ["http_requests", "basic_parsing"] :=
  C7_amended_fallback_marking cfgNoHub "job5" "ts5" envFallbackOk
    (BrowserSession.sessionErr "boom") rfl rfl (by decide)

set_option maxRecDepth 4000 in
/-- C8, counterexample: a 304 response is not 2xx yet yields `success=true`
(only 4xx/5xx raise in `raise_for_status`), and on success the raw body is
not returned: a 501-character body is cut to a 500-character preview with an
appended ellipsis. -/
theorem C8_classification_counterexample :
    ((scrape_with_requests (HttpAttempt.got resp304)).success = true ∧
      ¬ (200 ≤ resp304.status_code ∧ resp304.status_code < 300)) ∧
    (scrape_with_requests (HttpAttempt.got respLong)).text_preview ≠ some respLong.text := by
  refine ⟨⟨?_, ?_⟩, ?_⟩ <;> decide

/-- C8, amended: the HTTP fetcher reports `success=false` — always with the
`"requests_error"` method tag and a set `error` field — exactly on a
transport failure or a status code in 400..599; on any other status it
reports `success=true` with the status code, the response headers, the full
body length, and a body preview of at most 500 characters (plus a
3-character ellipsis when the body was longer). -/
theorem C8_amended_classification (a : HttpAttempt) :
    ((scrape_with_requests a).success = false ↔
      (scrape_with_requests a).method = "requests_error") ∧
    ((scrape_with_requests a).success = false →
      ((scrape_with_requests a).error).isSome = true) ∧
    (∀ r, a = HttpAttempt.got r →
      ((scrape_with_requests a).success = false ↔
        400 ≤ r.status_code ∧ r.status_code < 600)) ∧
    (∀ r, a = HttpAttempt.got r → (scrape_with_requests a).success = true →
      (scrape_with_requests a).status_code = some r.status_code ∧
      (scrape_with_requests a).headers = some r.headers ∧
      (scrape_with_requests a).content_length = some r.text.length ∧
      (scrape_with_requests a).text_preview = some (pyPreview r.text 500) ∧
      (pyPreview r.text 500).length =
        min r.text.length 500 + (if 500 < r.text.length then 3 else 0)) := by
  have hne : ("requests_fallback" : String) ≠ "requests_error" := by decide
  refine ⟨?_, scrape_with_requests_failure_error a, ?_, ?_⟩
  · cases a with
    | failed m => simp [scrape_with_requests]
    | got r =>
      by_cases hc : 400 ≤ r.status_code ∧ r.status_code < 600 <;>
        simp [scrape_with_requests, hc, hne]
  · intro r hr
    subst hr
    by_cases hc : 400 ≤ r.status_code ∧ r.status_code < 600 <;>
      simp [scrape_with_requests, hc]
  · intro r hr hs
    subst hr
    by_cases hc : 400 ≤ r.status_code ∧ r.status_code < 600
    · simp [scrape_with_requests, hc] at hs
    · exact ⟨by simp [scrape_with_requests, hc], by simp [scrape_with_requests, hc],
        by simp [scrape_with_requests, hc], by simp [scrape_with_requests, hc],
        pyPreview_length r.text 500⟩

/-- C8 witness: the amended theorem's success clause at a concrete 200
response. -/
theorem C8_amended_classification_witness :
    (scrape_with_requests (HttpAttempt.got respOk)).status_code = some 200 :=
  (((C8_amended_classification (HttpAttempt.got respOk)).2.2.2) respOk rfl (by decide)).1

/-- C9: every exit of a browser fetch — success, navigation timeout, or any
in-session error — closes the browser before returning: each trace starts
with the launch and ends with the close immediately followed by the return,
mirroring the `finally` around the fetch body. -/
theorem C9_session_released (s : BrowserSession) :
    ∃ mid, (scrape_with_browser s).2 =
      SessEvent.launch :: (mid ++ [SessEvent.close, SessEvent.ret]) := by
  cases s <;> exact ⟨_, rfl⟩

/-- C10 (implicit): whatever the control path — browser success, fallback
success, fallback failure, or an exception escaping the browser fetch — the
persisted result's status is terminal: `"completed"` or `"failed"`, never
the initial `"started"`. -/
theorem C10_terminal_status (cfg : Config) (j t : String) (env : RunEnv) :
    (main cfg j t env).persisted = true ∧
    ((main cfg j t env).result.status = "completed" ∨
      (main cfg j t env).result.status = "failed") := by
  refine ⟨rfl, ?_⟩
  cases hb : env.browser with
  | raised m =>
    right
    simp [main, pipelineCore, addMetadata, hb]
  | returned s =>
    cases hs : (scrape_with_browser s).1.success with
    | true =>
      left
      simp [main, pipelineCore, addMetadata, hb, hs]
    | false =>
      cases hq : (scrape_with_requests env.http).success with
      | true =>
        left
        simp [main, pipelineCore, addMetadata, hb, hs, hq]
      | false =>
        right
        simp [main, pipelineCore, addMetadata, hb, hs, hq]

end Scraper
